import Mathlib

/-!
Verification of the desktop-apps-launcher tool server against its
natural-language specification.

The repository holds three near-duplicate variants of one module:
`src/unnamed/part_000` (a plain-JavaScript build, server name
"desktop-launcher") and two TypeScript copies inside `src/src/index.ts`.
All claims reference `part_000` and the first `index.ts` copy, so both are
embedded here.  Definitions suffixed `P0` come from `src/unnamed/part_000`;
definitions suffixed `IX` come from the first module of `src/src/index.ts`.

External behaviour (process spawning, shell command execution, directory
listing) is modelled by an explicit environment of oracles, and each
operation returns its result together with the list of external effects it
issued, so that "which command was run with which arguments" is provable.
-/

deriving instance DecidableEq for Except

namespace DesktopAppsLauncher

/-- Model of JavaScript `String.prototype.endsWith`: the suffix's
characters are a suffix of the string's characters. -/
def jsEndsWith (s suffix : String) : Bool := decide (suffix.data <:+ s.data)

/-- Model of JavaScript `String.prototype.includes(c)` for a single
character. -/
def jsIncludesChar (s : String) (c : Char) : Bool := s.data.contains c

/-- Model of JavaScript `String.prototype.toLowerCase` (character-wise
lowering). -/
def jsToLower (s : String) : String := String.mk (s.data.map Char.toLower)

/-- Lexicographic comparison of character lists by code unit, the order
JavaScript's default `Array.prototype.sort` uses on strings. -/
def charListLe : List Char → List Char → Bool
  | [], _ => true
  | _ :: _, [] => false
  | a :: as, b :: bs =>
    if a.val < b.val then true else if b.val < a.val then false else charListLe as bs

/-- Insertion step for `jsSort`. -/
def jsSortInsert (x : String) : List String → List String
  | [] => [x]
  | y :: ys => if charListLe x.data y.data then x :: y :: ys else y :: jsSortInsert x ys

/-- Model of JavaScript `Array.prototype.sort()` on strings (insertion
sort by code-unit order; only the resulting order matters). -/
def jsSort : List String → List String
  | [] => []
  | x :: xs => jsSortInsert x (jsSort xs)

/-- Model of JavaScript `Array.prototype.join(' ')`. -/
def jsJoinSpace : List String → String
  | [] => ""
  | [x] => x
  | x :: xs => x ++ " " ++ jsJoinSpace xs

/-- Appends `".app"` when the name does not already end with it
(`appName.endsWith('.app') ? appName : appName + '.app'`). -/
def ensureAppSuffix (s : String) : String :=
  if jsEndsWith s ".app" then s else s ++ ".app"

/-- Model of `name.replace(/\.app$/, '')`: strips one trailing `".app"`. -/
def stripAppSuffix (s : String) : String :=
  if jsEndsWith s ".app" then String.mk (s.data.take (s.data.length - 4)) else s

/-- A JavaScript error value as the module observes it: `message`,
optional numeric `code` (compared against `1` for pkill), optional
`stderr` text attached by `child_process.exec` failures. -/
structure JsError where
  message : String
  code : Option Int
  stderr : Option String
deriving DecidableEq

/-- Host platform as reported by `os.platform()`. -/
inductive Platform
  | darwin
  | win32
  | linux
  | other (name : String)
deriving DecidableEq

/-- External-world oracles.  `spawnResult cmd args shell` is `some e` when
the spawned process surfaces error `e` within the 500 ms observation
window and `none` when the window elapses without an error;
`execResult cmd` is the outcome of `child_process.exec` on a shell command
(`Except.ok (stdout, stderr)` on exit status 0, `Except.error e` with
`e.code` the exit status otherwise); `applicationsDir` is the outcome of
`readdir('/Applications')`. -/
structure Env where
  platform : Platform
  devMode : Bool
  spawnResult : String → List String → Bool → Option JsError
  execResult : String → Except JsError (String × String)
  applicationsDir : Except JsError (List String)

/-- External effect issued by an operation: a detached `spawn` (with its
shell flag), a shell `exec`, or a directory read. -/
inductive Effect
  | spawnProc (cmd : String) (args : List String) (shell : Bool)
  | execCmd (cmd : String)
  | readDir (dir : String)
deriving DecidableEq

/-- Structured operation outcome: success flag, message, optional captured
stdout/stderr — the shape `startApp`/`stopApp` return. -/
structure OpResult where
  success : Bool
  message : String
  stdout : Option String
  stderr : Option String
deriving DecidableEq

/-! ## Embedding of `src/unnamed/part_000` -/

/-- An entry of `APP_CONFIGS` in `part_000`: id, display name, per-platform
executable path overrides, default start and stop argument lists. -/
structure AppConfig where
  id : String
  displayName : String
  execPathDarwin : Option String
  execPathWin32 : Option String
  execPathLinux : Option String
  startArgs : List String
  stopArgs : List String
deriving DecidableEq

/-- Looks up `config.execPath[platform]` (the config objects only define
the three supported platform keys). -/
def AppConfig.execPathFor (c : AppConfig) : Platform → Option String
  | Platform.darwin => c.execPathDarwin
  | Platform.win32 => c.execPathWin32
  | Platform.linux => c.execPathLinux
  | Platform.other _ => none

/-- The `APP_CONFIGS` table of `part_000`: a single entry keyed
`"desktop-crawler"`. -/
def APP_CONFIGS : List (String × AppConfig) :=
  [("desktop-crawler",
    { id := "desktop-crawler"
      displayName := "Desktop Crawler"
      execPathDarwin := some "/Applications/Desktop Crawler.app/Contents/MacOS/Desktop Crawler"
      execPathWin32 := some "C:\\Program Files\\Desktop Crawler\\Desktop Crawler.exe"
      execPathLinux := some "/usr/local/bin/desktop-crawler"
      startArgs := ["--headless", "--firecrawl-headless"]
      stopArgs := ["--headless", "--stop"] })]

/-- Model of `APP_CONFIGS[key]` lookup. -/
def lookupConfig (key : String) : Option AppConfig :=
  (APP_CONFIGS.find? (fun p => p.1 == key)).map (fun p => p.2)

/-- Embedding of `getExecutablePath(appName, config?)` from `part_000`
lines 15–39: in development mode it returns `electron`; a configured
per-platform override wins; otherwise the per-platform convention applies
and an unknown platform throws `Unsupported platform: <name>`. -/
def getExecutablePath (env : Env) (appName : String) (config : Option AppConfig) :
    Except JsError String :=
  if env.devMode then Except.ok "electron"
  else
    match config.bind (fun c => c.execPathFor env.platform) with
    | some customPath => Except.ok customPath
    | none =>
      match env.platform with
      | Platform.darwin =>
          Except.ok ("/Applications/" ++ appName ++ ".app/Contents/MacOS/" ++ appName)
      | Platform.win32 =>
          Except.ok ("C:\\Program Files\\" ++ appName ++ "\\" ++ appName ++ ".exe")
      | Platform.linux =>
          Except.ok ("/usr/local/bin/" ++ jsToLower appName)
      | Platform.other n =>
          Except.error { message := "Unsupported platform: " ++ n, code := none, stderr := none }

/-- Success message template
`` `${displayName} ${isStop ? 'stopped' : 'started'} successfully` ``. -/
def okMsg ( isStop : Bool) (displayName : String) : String :=
  displayName ++ (if isStop then " stopped successfully" else " started successfully")

/-- Failure message template of the direct-spawn error listener:
`` `Failed to ${isStop ? 'stop' : 'start'} ${displayName}: ` ``. -/
def failSpawnMsg ( isStop : Bool) (displayName : String) : String :=
  "Failed to " ++ (if isStop then "stop " else "start ") ++ displayName ++ ": "

/-- Failure message template of the outer catch block:
`` `Failed to ${isStop ? 'stop' : 'start'} application: ` ``. -/
def failCatchMsg ( isStop : Bool) : String :=
  "Failed to " ++ (if isStop then "stop" else "start") ++ " application: "

/-- Model of `error.message || 'Unknown error'`. -/
def msgOrUnknown (e : JsError) : String :=
  if e.message = "" then "Unknown error" else e.message

/-- Embedding of the catch block of `launchAppProcess` (`part_000` lines
166–192): for stop operations it attempts `pkill -f <name without .app>`
via `safeSpawnAsync`; a pkill rejection whose `code` is `1` is normalised
to a successful no-op; otherwise (and for start operations) the original
error is reported with `success: false`.  `tr` is the effect trace
accumulated before the throw. -/
def p0Catch (env : Env) (appName : String) ( isStop : Bool) (e : JsError)
    (tr : List Effect) : OpResult × List Effect :=
  if isStop then
    let base := stripAppSuffix appName
    let tr' := tr ++ [Effect.spawnProc "pkill" ["-f", base] false]
    match env.spawnResult "pkill" ["-f", base] false with
    | none =>
        ({ success := true, message := "Application " ++ appName ++ " stopped using pkill",
           stdout := none, stderr := none }, tr')
    | some pkillError =>
        if pkillError.code = some 1 then
          ({ success := true, message := "No running processes found for " ++ appName,
             stdout := none, stderr := none }, tr')
        else
          ({ success := false, message := failCatchMsg isStop ++ msgOrUnknown e,
             stdout := none, stderr := e.stderr }, tr')
  else
    ({ success := false, message := failCatchMsg isStop ++ msgOrUnknown e,
       stdout := none, stderr := e.stderr }, tr)

/-- The argument-selection rule of `launchAppProcess` (`part_000` lines
125 and 132), written as a standalone function of the inputs: caller
arguments win; otherwise the configured per-direction defaults; otherwise
`['--quit']` for stop and `[]` for start. -/
def effArgsP0 (appName : String) ( isStop : Bool) (customArgs : Option (List String)) :
    List String :=
  match lookupConfig (jsToLower appName) with
  | some c => customArgs.getD (if isStop then c.stopArgs else c.startArgs)
  | none => customArgs.getD (if isStop then ["--quit"] else [])

/-- Embedding of the resolution prelude of `launchAppProcess` (`part_000`
lines 117–133): configuration lookup by lowercased name, executable path
resolution, effective argument list (caller arguments win; otherwise the
configured per-direction defaults; otherwise `['--quit']` for stop and
`[]` for start), and display name. -/
def resolveP0 (env : Env) (appName : String) ( isStop : Bool)
    (customArgs : Option (List String)) : Except JsError (String × List String × String) :=
  match lookupConfig (jsToLower appName) with
  | some appConfig =>
    match getExecutablePath env appConfig.displayName (some appConfig) with
    | Except.error e => Except.error e
    | Except.ok execPath =>
        Except.ok (execPath,
          customArgs.getD (if isStop then appConfig.stopArgs else appConfig.startArgs),
          appConfig.displayName)
  | none =>
    match getExecutablePath env appName none with
    | Except.error e => Except.error e
    | Except.ok execPath =>
        Except.ok (execPath,
          customArgs.getD (if isStop then ["--quit"] else []),
          appName)

/-- Embedding of `launchAppProcess(appName, isStop, customArgs)`
(`part_000` lines 115–193).  When the resolved path contains a space on
macOS the process is spawned through a shell (`safeSpawnAsync` with
`useShell`), and a rejection within the window throws into the catch
block; otherwise the process is spawned directly and an error surfacing
within the 500 ms window yields `success: false` with the underlying
message, while an uneventful window yields `success: true`. -/
def launchAppProcessP0 (env : Env) (appName : String) ( isStop : Bool)
    (customArgs : Option (List String)) : OpResult × List Effect :=
  match resolveP0 env appName isStop customArgs with
  | Except.error e => p0Catch env appName isStop e []
  | Except.ok (execPath, args, displayName) =>
    if jsIncludesChar execPath ' ' && env.platform == Platform.darwin then
      match env.spawnResult execPath args true with
      | some e => p0Catch env appName isStop e [Effect.spawnProc execPath args true]
      | none =>
          ({ success := true, message := okMsg isStop displayName,
             stdout := none, stderr := none }, [Effect.spawnProc execPath args true])
    else
      match env.spawnResult execPath args false with
      | some e =>
          ({ success := false, message := failSpawnMsg isStop displayName ++ e.message,
             stdout := none, stderr := none }, [Effect.spawnProc execPath args false])
      | none =>
          ({ success := true, message := okMsg isStop displayName,
             stdout := none, stderr := none }, [Effect.spawnProc execPath args false])

/-- Embedding of `startApp` (`part_000` lines 195–197). -/
def startAppP0 (env : Env) (appName : String) (customArgs : Option (List String)) :
    OpResult × List Effect :=
  launchAppProcessP0 env appName false customArgs

/-- Embedding of `stopApp` (`part_000` lines 199–201). -/
def stopAppP0 (env : Env) (appName : String) (customArgs : Option (List String)) :
    OpResult × List Effect :=
  launchAppProcessP0 env appName true customArgs

/-- Embedding of `launchApp` (`part_000` lines 92–102): ensure the `.app`
suffix, then `open /Applications/<fullAppName>` via `safeSpawnAsync`;
returns `false` exactly when the spawn rejects. -/
def launchAppP0 (env : Env) (appName : String) : Bool × List Effect :=
  let appPath := "/Applications/" ++ ensureAppSuffix appName
  match env.spawnResult "open" [appPath] false with
  | some _ => (false, [Effect.spawnProc "open" [appPath] false])
  | none => (true, [Effect.spawnProc "open" [appPath] false])

/-- Embedding of `openWithApp` (`part_000` lines 103–113): ensure the
`.app` suffix, then `open -a /Applications/<fullAppName> <filePath>`. -/
def openWithAppP0 (env : Env) (appName filePath : String) : Bool × List Effect :=
  let appPath := "/Applications/" ++ ensureAppSuffix appName
  match env.spawnResult "open" ["-a", appPath, filePath] false with
  | some _ => (false, [Effect.spawnProc "open" ["-a", appPath, filePath] false])
  | none => (true, [Effect.spawnProc "open" ["-a", appPath, filePath] false])

/-- Embedding of `listApplications` (`part_000` lines 81–91): names ending
in `.app` from `/Applications`, sorted; an errored read yields `[]`. -/
def listApplicationsP0 (env : Env) : List String × List Effect :=
  match env.applicationsDir with
  | Except.ok files =>
      (jsSort (files.filter (fun f => jsEndsWith f ".app")), [Effect.readDir "/Applications"])
  | Except.error _ => ([], [Effect.readDir "/Applications"])

/-- Embedding of `getConfiguredApps` (`part_000` lines 203–205). -/
def getConfiguredApps : List String :=
  APP_CONFIGS.map (fun p => p.2.displayName)

/-! ## Embedding of the `part_000` tool dispatcher -/

/-- Raw tool-call arguments as the dispatcher sees them before schema
validation: each field may be present or absent.  (Fields that are present
are modelled as already carrying the schema's type; the claims under
verification only concern presence and absence.) -/
structure RawToolArgs where
  appName : Option String
  filePath : Option String
  args : Option (List String)
deriving DecidableEq

/-- A tool-call request: tool name plus optional `arguments` object. -/
structure ToolRequest where
  name : String
  arguments : Option RawToolArgs
deriving DecidableEq

/-- A tool-call response: a structured operation result, a list of names
(for the two listing tools), or an `isError` response carrying its text.
Zod validation failures surface as `errorText ("Invalid arguments: …")`
and other thrown errors as `errorText ("Error: …")`, mirroring the catch
block of `part_000` lines 429–450. -/
inductive ToolResponse
  | result (r : OpResult)
  | names (xs : List String)
  | errorText (text : String)
deriving DecidableEq

/-- Detail text standing in for zod's serialized issue list in
`Invalid arguments: ${error.message}` (the exact JSON shape is a zod
library internal; only the `Invalid arguments` classification matters). -/
def zodRequiredDetail : String := "Required"

/-- Embedding of the `CallToolRequestSchema` handler of `part_000` lines
302–451: the arguments-present guard (all tools except
`list_applications` and `list_configured_apps` require an `arguments`
object), per-tool input validation, dispatch into the core operations,
and output-schema projection (`StartAppOutputSchema.parse` keeps only
`success` and `message`). -/
def handleCallToolP0 (env : Env) (req : ToolRequest) : ToolResponse × List Effect :=
  if req.arguments.isNone && !(req.name == "list_applications")
      && !(req.name == "list_configured_apps") then
    (ToolResponse.errorText "Error: Arguments are required", [])
  else
    let ra := req.arguments.getD { appName := none, filePath := none, args := none }
    match req.name with
    | "list_applications" =>
        let (apps, tr) := listApplicationsP0 env
        (ToolResponse.names apps, tr)
    | "launch_app" =>
        match ra.appName with
        | none => (ToolResponse.errorText ("Invalid arguments: " ++ zodRequiredDetail), [])
        | some n =>
            let (ok, tr) := launchAppP0 env n
            (ToolResponse.result
              { success := ok,
                message := if ok then "Application launched successfully"
                  else "Failed to launch application",
                stdout := none, stderr := none }, tr)
    | "open_with_app" =>
        match ra.appName, ra.filePath with
        | some n, some fp =>
            let (ok, tr) := openWithAppP0 env n fp
            (ToolResponse.result
              { success := ok,
                message := if ok then "File opened successfully"
                  else "Failed to open file with application",
                stdout := none, stderr := none }, tr)
        | _, _ => (ToolResponse.errorText ("Invalid arguments: " ++ zodRequiredDetail), [])
    | "start_app" =>
        match ra.appName with
        | none => (ToolResponse.errorText ("Invalid arguments: " ++ zodRequiredDetail), [])
        | some n =>
            let (r, tr) := startAppP0 env n ra.args
            (ToolResponse.result
              { success := r.success, message := r.message, stdout := none, stderr := none }, tr)
    | "stop_app" =>
        match ra.appName with
        | none => (ToolResponse.errorText ("Invalid arguments: " ++ zodRequiredDetail), [])
        | some n =>
            let (r, tr) := stopAppP0 env n ra.args
            (ToolResponse.result r, tr)
    | "list_configured_apps" =>
        (ToolResponse.names getConfiguredApps, [])
    | "start_firecrawl" =>
        let (r, tr) := startAppP0 env "desktop-crawler" none
        (ToolResponse.result
          { success := r.success, message := r.message, stdout := none, stderr := none }, tr)
    | "stop_firecrawl" =>
        let (r, tr) := stopAppP0 env "desktop-crawler" none
        (ToolResponse.result r, tr)
    | other => (ToolResponse.errorText ("Error: Unknown tool: " ++ other), [])

/-! ## Embedding of the first module of `src/src/index.ts` -/

/-- Embedding of `APP_CONFIGS['firecrawl'].executablePath` (`index.ts`
lines 33–48): development mode yields `electron`, otherwise a fixed path
per platform, otherwise a thrown `Unsupported platform` error. -/
def firecrawlExecutablePathIX (env : Env) : Except JsError String :=
  if env.devMode then Except.ok "electron"
  else
    match env.platform with
    | Platform.darwin =>
        Except.ok "/Applications/Desktop Crawler.app/Contents/MacOS/Desktop Crawler"
    | Platform.win32 =>
        Except.ok "C:\\Program Files\\Desktop Crawler\\Desktop Crawler.exe"
    | Platform.linux =>
        Except.ok "/usr/local/bin/desktop-crawler"
    | Platform.other n =>
        Except.error { message := "Unsupported platform: " ++ n, code := none, stderr := none }

/-- Embedding of `APP_CONFIGS['firecrawl'].startArgs` (`index.ts` lines
49–55): the fixed defaults with any non-empty caller list appended. -/
def firecrawlStartArgsIX (customArgs : Option (List String)) : List String :=
  ["--headless", "--firecrawl-headless"] ++
    (match customArgs with
     | some l => if l.length > 0 then l else []
     | none => [])

/-- Embedding of `APP_CONFIGS['firecrawl'].stopCommand` (`index.ts` lines
56–73): a quoted executable path followed by `--stop`, or a thrown
`Unsupported platform` error. -/
def firecrawlStopCommandIX (env : Env) : Except JsError String :=
  match env.platform with
  | Platform.darwin =>
      Except.ok "\"/Applications/Desktop Crawler.app/Contents/MacOS/Desktop Crawler\" --stop"
  | Platform.win32 =>
      Except.ok "\"C:\\Program Files\\Desktop Crawler\\Desktop Crawler.exe\" --stop"
  | Platform.linux =>
      Except.ok "\"/usr/local/bin/desktop-crawler\" --stop"
  | Platform.other n =>
      Except.error { message := "Unsupported platform: " ++ n, code := none, stderr := none }

/-- Embedding of the unconfigured-app executable-path derivation of
`startApp` (`index.ts` lines 142–147): ensure the `.app` suffix, strip it
for the binary name, and join
`/Applications/<full>/Contents/MacOS/<name>`. -/
def derivedExecutablePathIX (appName : String) : String :=
  let fullAppName := ensureAppSuffix appName
  "/Applications/" ++ fullAppName ++ "/Contents/MacOS/" ++ stripAppSuffix fullAppName

/-- Embedding of `startApp` from the first `index.ts` module (lines
115–172).  Both branches spawn detached, `unref`, and return
`success: true` immediately — no error listener and no observation
window — so the spawn oracle's outcome does not influence the result.
A thrown resolution error reaches the catch block, whose message
stringifies the error (`Failed to start application: ${error}`). -/
def startAppIX (env : Env) (appName : String) (args : Option (List String)) :
    OpResult × List Effect :=
  if jsToLower appName == "firecrawl" then
    match firecrawlExecutablePathIX env with
    | Except.error e =>
        ({ success := false, message := "Failed to start application: Error: " ++ e.message,
           stdout := none, stderr := none }, [])
    | Except.ok execPath =>
        let startArgs := firecrawlStartArgsIX args
        ({ success := true, message := "Firecrawl started successfully with configured settings",
           stdout := none, stderr := none }, [Effect.spawnProc execPath startArgs false])
  else
    let executablePath := derivedExecutablePathIX appName
    ({ success := true,
       message := "Application " ++ appName ++ " started successfully" ++
         (match args with
          | some l => " with arguments: " ++ jsJoinSpace l
          | none => ""),
       stdout := none, stderr := none }, [Effect.spawnProc executablePath (args.getD []) false])

/-- The pkill shell command the unconfigured branch of the `index.ts`
`stopApp` builds: `pkill -f "<name without .app>"`. -/
def pkillCommandIX (appName : String) : String :=
  "pkill -f \"" ++ stripAppSuffix (ensureAppSuffix appName) ++ "\""

/-- Model of `stdout || undefined` / `stderr || undefined`. -/
def nonEmptyOpt (s : String) : Option String :=
  if s = "" then none else some s

/-- Embedding of `stopApp` from the first `index.ts` module (lines
174–226): a configured app runs its stop command through `exec`; an
unconfigured app runs `pkill -f` on its base name.  The shared catch
block turns an exec failure with exit code 1 into the successful
`No running processes found` no-op and every other failure into
`success: false` with the error's message and stderr. -/
def stopAppIX (env : Env) (appName : String) : OpResult × List Effect :=
  if jsToLower appName == "firecrawl" then
    match firecrawlStopCommandIX env with
    | Except.error e =>
        if e.code = some 1 then
          ({ success := true, message := "No running processes found for " ++ appName,
             stdout := none, stderr := none }, [])
        else
          ({ success := false, message := "Failed to stop application: " ++ e.message,
             stdout := none, stderr := e.stderr }, [])
    | Except.ok stopCommand =>
        match env.execResult stopCommand with
        | Except.ok (out, err) =>
            ({ success := true,
               message := "Firecrawl stopped successfully using configured command",
               stdout := nonEmptyOpt out, stderr := nonEmptyOpt err },
             [Effect.execCmd stopCommand])
        | Except.error e =>
            if e.code = some 1 then
              ({ success := true, message := "No running processes found for " ++ appName,
                 stdout := none, stderr := none }, [Effect.execCmd stopCommand])
            else
              ({ success := false, message := "Failed to stop application: " ++ e.message,
                 stdout := none, stderr := e.stderr }, [Effect.execCmd stopCommand])
  else
    match env.execResult (pkillCommandIX appName) with
    | Except.ok (out, err) =>
        ({ success := true, message := "Application " ++ appName ++ " stopped successfully",
           stdout := nonEmptyOpt out, stderr := nonEmptyOpt err },
         [Effect.execCmd (pkillCommandIX appName)])
    | Except.error e =>
        if e.code = some 1 then
          ({ success := true, message := "No running processes found for " ++ appName,
             stdout := none, stderr := none }, [Effect.execCmd (pkillCommandIX appName)])
        else
          ({ success := false, message := "Failed to stop application: " ++ e.message,
             stdout := none, stderr := e.stderr }, [Effect.execCmd (pkillCommandIX appName)])

/-! ## Registry model

The specification describes a Process Registry of tracked processes
(normalized key ↦ pid, display name, start time).  No variant of the
source defines such a registry: no data structure records spawned
process identities, and no code path in `startApp`/`launchAppProcess`
writes tracked state.  To state the spec's registry claims we thread an
explicit registry through the start operation; faithfully to the source,
the transition leaves it untouched. -/

/-- A tracked-process entry as the specification describes it. -/
structure TrackedProcess where
  pid : Nat
  displayName : String
  startedAt : Nat
deriving DecidableEq

/-- Registry of tracked processes keyed by normalized identifier. -/
abbrev Registry := List (String × TrackedProcess)

/-- The `part_000` start operation as a transition on manager state:
the source records nothing, so the registry component is returned
unchanged. -/
def startAppTrackedP0 (env : Env) (reg : Registry) (appName : String)
    (customArgs : Option (List String)) : Registry × OpResult × List Effect :=
  (reg, startAppP0 env appName customArgs)

/-! ## Concrete environments used by witnesses and counterexamples -/

/-- Production macOS host on which every spawn's observation window
elapses without an error and every shell command exits 0. -/
def envQuiet : Env :=
  { platform := Platform.darwin
    devMode := false
    spawnResult := fun _ _ _ => none
    execResult := fun _ => Except.ok ("", "")
    applicationsDir := Except.ok [] }

/-- Production macOS host on which every spawn surfaces `spawn ENOENT`
within the observation window (the launched executable does not exist —
in particular no such process is running). -/
def envSpawnErr : Env :=
  { platform := Platform.darwin
    devMode := false
    spawnResult := fun _ _ _ => some { message := "spawn ENOENT", code := none, stderr := none }
    execResult := fun _ => Except.ok ("", "")
    applicationsDir := Except.ok [] }

/-- Production macOS host on which every shell command fails with exit
status 1 — `pkill`'s "no process matched" status. -/
def envPkill1 : Env :=
  { platform := Platform.darwin
    devMode := false
    spawnResult := fun _ _ _ => none
    execResult := fun _ =>
      Except.error { message := "Command failed", code := some 1, stderr := none }
    applicationsDir := Except.ok [] }

/-- Development-mode host (`NODE_ENV=development`) on an unsupported
platform. -/
def envDev : Env :=
  { platform := Platform.other "freebsd"
    devMode := true
    spawnResult := fun _ _ _ => none
    execResult := fun _ => Except.ok ("", "")
    applicationsDir := Except.ok [] }

/-! ## Helper lemmas -/

/-- Appending `".app"` always produces a string ending in `".app"`. -/
theorem jsEndsWith_append_app (s : String) : jsEndsWith (s ++ ".app") ".app" = true := by
  simp [jsEndsWith, String.data_append]

/-- On a name already carrying the suffix, `ensureAppSuffix` is the
identity. -/
theorem ensureAppSuffix_append (s : String) :
    ensureAppSuffix (s ++ ".app") = s ++ ".app" := by
  simp [ensureAppSuffix, jsEndsWith_append_app]

/-- On a name without the suffix, `ensureAppSuffix` appends it. -/
theorem ensureAppSuffix_of_no_suffix {s : String} (h : jsEndsWith s ".app" = false) :
    ensureAppSuffix s = s ++ ".app" := by
  simp [ensureAppSuffix, h]

/-! ## Claims -/

/-- C1 (counterexample): after a successful `start_app("X")` the manager
tracks nothing — starting from an empty registry the call succeeds yet
the registry still has zero entries, not exactly one; the source defines
no registry and records no pid, name or start time. -/
theorem c1_counterexample :
    (startAppTrackedP0 envQuiet [] "X" none).2.1.success = true ∧
    (startAppTrackedP0 envQuiet [] "X" none).1.length = 0 ∧
    ¬ (startAppTrackedP0 envQuiet [] "X" none).1.length = 1 := by decide

/-- C1 (amended): `start_app` records nothing into any registry of
tracked processes: for every environment, registry and application name
the start transition leaves the registry exactly as it was, and a second
`start_app` of the same name behaves identically to the first (same
outcome, registry again unchanged) without raising — the operation is
total and every outcome is a structured result. -/
theorem c1_registry_unchanged (env : Env) (reg : Registry) (appName : String)
    (customArgs : Option (List String)) :
    (startAppTrackedP0 env reg appName customArgs).1 = reg ∧
    (startAppTrackedP0 env (startAppTrackedP0 env reg appName customArgs).1
        appName customArgs).2.1 =
      (startAppTrackedP0 env reg appName customArgs).2.1 ∧
    (startAppTrackedP0 env (startAppTrackedP0 env reg appName customArgs).1
        appName customArgs).1 = reg :=
  ⟨rfl, rfl, rfl⟩

/-- C2 (counterexample): `stop_app("myapp")` with no tracked entry (the
manager tracks nothing) does not terminate by name-matching in
`part_000`: its only external effect is a direct spawn of the resolved
executable with `['--quit']`, not a `pkill` pattern kill. -/
theorem c2_counterexample :
    (stopAppP0 envQuiet "myapp" none).2 =
      [Effect.spawnProc "/Applications/myapp.app/Contents/MacOS/myapp" ["--quit"] false] ∧
    ("/Applications/myapp.app/Contents/MacOS/myapp" : String) ≠ "pkill" := by decide

/-- C2 (amended): in the `src/src/index.ts` variant, `stop_app` on an
application with no configured profile terminates by name-matching: its
single external effect is the shell command `pkill -f "<base name>"`
(the name with a trailing `.app` stripped).  In the `part_000` variant
the stop path instead invokes the resolved executable with stop
arguments, with `pkill` only as a fallback after a thrown resolution
error. -/
theorem c2_unconfigured_stop_uses_pkill (env : Env) (appName : String)
    (h : (jsToLower appName == "firecrawl") = false) :
    (stopAppIX env appName).2 = [Effect.execCmd (pkillCommandIX appName)] := by
  unfold stopAppIX
  rw [h]
  simp only [Bool.false_eq_true, if_false]
  cases henv : env.execResult (pkillCommandIX appName) with
  | ok p => cases p; simp [henv]
  | error e =>
    simp only [henv]
    by_cases hc : e.code = some 1
    · simp [hc]
    · simp [hc]

/-- C2 (witness): instantiation at `"Safari"` on a quiet host. -/
theorem c2_witness :
    (stopAppIX envQuiet "Safari").2 = [Effect.execCmd "pkill -f \"Safari\""] :=
  (c2_unconfigured_stop_uses_pkill envQuiet "Safari" (by decide)).trans (by decide)

/-- C3 (counterexample): `start_app("firecrawl")` does not behave like
`start_app("desktop-crawler", ["--headless","--firecrawl-headless"])` in
`part_000` — `"firecrawl"` has no entry in `APP_CONFIGS`, so it resolves
through the generic convention and spawns a different executable with
different arguments. -/
theorem c3_counterexample :
    (startAppP0 envQuiet "firecrawl" none).2 ≠
      (startAppP0 envQuiet "desktop-crawler"
        (some ["--headless", "--firecrawl-headless"])).2 := by decide

/-- C3 (amended): the pre-bound `start_firecrawl` tool is exactly
equivalent (same response, same external effects, for every
environment) to
`start_app("desktop-crawler", ["--headless","--firecrawl-headless"])`;
`start_app("firecrawl")` is not equivalent to either. -/
theorem c3_start_firecrawl_alias (env : Env) :
    handleCallToolP0 env
        { name := "start_firecrawl", arguments := some ⟨none, none, none⟩ } =
      handleCallToolP0 env
        { name := "start_app",
          arguments := some ⟨some "desktop-crawler", none,
            some ["--headless", "--firecrawl-headless"]⟩ } := rfl

/-- C4 (counterexample): with no profile and no caller arguments, the
effective stop argument list of `part_000` is `['--quit']`, not the
empty list the claim requires. -/
theorem c4_counterexample :
    lookupConfig (jsToLower "myapp") = none ∧
    resolveP0 envQuiet "myapp" true none =
      Except.ok ("/Applications/myapp.app/Contents/MacOS/myapp", ["--quit"], "myapp") ∧
    (["--quit"] : List String) ≠ [] := by decide

/-- C4 (amended): in `part_000`, whenever resolution succeeds the
argument list actually handed to the spawned process is: the
caller-supplied arguments unconditionally when present; otherwise the
profile's configured default list for the requested direction; otherwise
`[]` for start and `['--quit']` for stop.  (In the `src/src/index.ts`
variant the configured firecrawl profile instead appends caller
arguments to its start defaults.) -/
theorem c4_effective_args (env : Env) (appName : String) ( isStop : Bool)
    (customArgs : Option (List String)) (execPath : String) (args : List String)
    (displayName : String)
    (h : resolveP0 env appName isStop customArgs = Except.ok (execPath, args, displayName)) :
    args = effArgsP0 appName isStop customArgs ∧
    (launchAppProcessP0 env appName isStop customArgs).2.head? =
      some (Effect.spawnProc execPath args
        (jsIncludesChar execPath ' ' && env.platform == Platform.darwin)) := by
  constructor
  · unfold resolveP0 at h
    unfold effArgsP0
    cases hcfg : lookupConfig (jsToLower appName) with
    | some c =>
      rw [hcfg] at h
      dsimp only at h ⊢
      cases hex : getExecutablePath env c.displayName (some c) with
      | error e => rw [hex] at h; exact absurd h (by simp)
      | ok p =>
        rw [hex] at h
        dsimp only at h
        simp only [Except.ok.injEq, Prod.mk.injEq] at h
        exact h.2.1.symm
    | none =>
      rw [hcfg] at h
      dsimp only at h ⊢
      cases hex : getExecutablePath env appName none with
      | error e => rw [hex] at h; exact absurd h (by simp)
      | ok p =>
        rw [hex] at h
        dsimp only at h
        simp only [Except.ok.injEq, Prod.mk.injEq] at h
        exact h.2.1.symm
  · unfold launchAppProcessP0
    rw [h]
    dsimp only
    by_cases hsp : (jsIncludesChar execPath ' ' && env.platform == Platform.darwin) = true
    · rw [hsp]
      simp only [if_true]
      cases env.spawnResult execPath args true with
      | none => rfl
      | some e =>
        unfold p0Catch
        cases isStop with
        | false => rfl
        | true =>
          simp only [if_true]
          cases env.spawnResult "pkill" ["-f", stripAppSuffix appName] false with
          | none => rfl
          | some pe => by_cases hc : pe.code = some 1 <;> simp [hc]
    · rw [Bool.not_eq_true] at hsp
      rw [hsp]
      simp only [Bool.false_eq_true, if_false]
      cases env.spawnResult execPath args false with
      | none => rfl
      | some e => rfl

/-- C4 (witness): instantiation of the unconfigured stop case at
`"myapp"` on a quiet macOS host: the spawned argument list is
`['--quit']`. -/
theorem c4_witness :
    (launchAppProcessP0 envQuiet "myapp" true none).2.head? =
      some (Effect.spawnProc "/Applications/myapp.app/Contents/MacOS/myapp" ["--quit"] false) :=
  ((c4_effective_args envQuiet "myapp" true none
      "/Applications/myapp.app/Contents/MacOS/myapp" ["--quit"] "myapp"
      (by decide)).2).trans (by decide)

/-- C5 (counterexample): in `part_000`, `stop_app("myapp")` on a host
where the app is not installed (hence no matching process; the spawn of
the resolved executable surfaces `spawn ENOENT` within the window)
returns `success: false` with a spawn failure message — not the
`success: true` "no running processes found" outcome the claim
requires. -/
theorem c5_counterexample :
    (stopAppP0 envSpawnErr "myapp" none).1.success = false ∧
    (stopAppP0 envSpawnErr "myapp" none).1.message =
      "Failed to stop myapp: spawn ENOENT" := by decide

/-- C5 (amended): in the `src/src/index.ts` variant, for an application
with no configured profile whose `pkill` command fails, exit status 1 is
normalised to the successful no-op `No running processes found for <app>`
and every other failure yields `success: false` carrying the error's
message.  (In the `part_000` variant `pkill` runs only as a fallback
after a thrown resolution error and its exit status is never observed.) -/
theorem c5_pkill_status_normalisation (env : Env) (appName : String) (e : JsError)
    (hcfg : (jsToLower appName == "firecrawl") = false)
    (herr : env.execResult (pkillCommandIX appName) = Except.error e) :
    (e.code = some 1 →
      (stopAppIX env appName).1 =
        { success := true, message := "No running processes found for " ++ appName,
          stdout := none, stderr := none }) ∧
    (¬ e.code = some 1 →
      (stopAppIX env appName).1.success = false ∧
      (stopAppIX env appName).1.message = "Failed to stop application: " ++ e.message) := by
  unfold stopAppIX
  rw [hcfg]
  simp only [Bool.false_eq_true, if_false, herr]
  constructor
  · intro h1; simp [h1]
  · intro h1; simp [h1]

/-- C5 (witness): instantiation at `"Safari"` on a host where every
shell command exits with status 1. -/
theorem c5_witness :
    (stopAppIX envPkill1 "Safari").1 =
      { success := true, message := "No running processes found for " ++ "Safari",
        stdout := none, stderr := none } :=
  (c5_pkill_status_normalisation envPkill1 "Safari"
      { message := "Command failed", code := some 1, stderr := none }
      (by decide) rfl).1 (by decide)

/-- C6 (counterexample): with `NODE_ENV=development`, resolution on an
unsupported platform does not fail — it returns `electron`. -/
theorem c6_counterexample :
    getExecutablePath envDev "Safari" none = Except.ok "electron" ∧
    (getExecutablePath envDev "Safari" none).isOk = true := by decide

/-- C6 (amended): outside development mode, `getExecutablePath` with no
profile override is deterministic (it depends only on the platform and
the development flag, never on the I/O oracles) and matches the
per-platform convention — applications-bundle path on macOS,
program-files path on Windows, local-bin path (lowercased) on Linux —
and every unsupported platform fails with an `Unsupported platform`
error.  In development mode it instead returns `electron` for every
platform. -/
theorem c6_path_conventions :
    (∀ (sr : String → List String → Bool → Option JsError)
       (er : String → Except JsError (String × String))
       (ad : Except JsError (List String)) (appName : String),
      getExecutablePath
          { platform := Platform.darwin, devMode := false, spawnResult := sr,
            execResult := er, applicationsDir := ad } appName none =
        Except.ok ("/Applications/" ++ appName ++ ".app/Contents/MacOS/" ++ appName) ∧
      getExecutablePath
          { platform := Platform.win32, devMode := false, spawnResult := sr,
            execResult := er, applicationsDir := ad } appName none =
        Except.ok ("C:\\Program Files\\" ++ appName ++ "\\" ++ appName ++ ".exe") ∧
      getExecutablePath
          { platform := Platform.linux, devMode := false, spawnResult := sr,
            execResult := er, applicationsDir := ad } appName none =
        Except.ok ("/usr/local/bin/" ++ jsToLower appName) ∧
      (∀ pn : String,
        getExecutablePath
            { platform := Platform.other pn, devMode := false, spawnResult := sr,
              execResult := er, applicationsDir := ad } appName none =
          Except.error
            { message := "Unsupported platform: " ++ pn, code := none, stderr := none })) ∧
    (∀ (env env' : Env) (appName : String) (config : Option AppConfig),
      env.platform = env'.platform → env.devMode = env'.devMode →
      getExecutablePath env appName config = getExecutablePath env' appName config) := by
  constructor
  · intro sr er ad appName
    exact ⟨rfl, rfl, rfl, fun pn => rfl⟩
  · intro env env' appName config hp hd
    cases env
    cases env'
    simp only at hp hd
    subst hp
    subst hd
    rfl

/-- C6 (witness): instantiation of the determinism conjunct at two
environments sharing platform and mode but differing in oracles, and of
the convention conjunct at `"Safari"`. -/
theorem c6_witness :
    getExecutablePath envQuiet "Safari" none =
      getExecutablePath envSpawnErr "Safari" none ∧
    getExecutablePath
        { platform := Platform.darwin, devMode := false,
          spawnResult := envQuiet.spawnResult, execResult := envQuiet.execResult,
          applicationsDir := envQuiet.applicationsDir } "Safari" none =
      Except.ok ("/Applications/" ++ "Safari" ++ ".app/Contents/MacOS/" ++ "Safari") :=
  ⟨c6_path_conventions.2 envQuiet envSpawnErr "Safari" none rfl rfl,
   (c6_path_conventions.1 envQuiet.spawnResult envQuiet.execResult
      envQuiet.applicationsDir "Safari").1⟩

/-- C7 (counterexample): in the `src/src/index.ts` variant, `startApp`
returns `success: true` immediately after spawning, with no observation
window: on a host whose spawn surfaces `spawn ENOENT` within the window
the outcome is still success, not the failure the claim requires. -/
theorem c7_counterexample :
    envSpawnErr.spawnResult (derivedExecutablePathIX "Safari") [] false =
      some { message := "spawn ENOENT", code := none, stderr := none } ∧
    (startAppIX envSpawnErr "Safari" none).1.success = true := by decide

/-- C7 (amended): in the `part_000` variant, every `start_app` launch
whose resolution succeeds observes the spawned process for the fixed
500 ms window: if the window elapses without an error the outcome is
`success: true` with the started-successfully message, and if a spawn
error with a non-empty message surfaces within the window the outcome is
`success: false` with a message carrying the underlying error text.
(The first `src/src/index.ts` module returns success immediately without
observing.) -/
theorem c7_observation_window (env : Env) (appName : String)
    (customArgs : Option (List String)) (execPath : String) (args : List String)
    (displayName : String)
    (h : resolveP0 env appName false customArgs = Except.ok (execPath, args, displayName)) :
    (env.spawnResult execPath args
        (jsIncludesChar execPath ' ' && env.platform == Platform.darwin) = none →
      (startAppP0 env appName customArgs).1 =
        { success := true, message := okMsg false displayName,
          stdout := none, stderr := none }) ∧
    (∀ e : JsError,
      env.spawnResult execPath args
          (jsIncludesChar execPath ' ' && env.platform == Platform.darwin) = some e →
      e.message ≠ "" →
      (startAppP0 env appName customArgs).1.success = false ∧
      ∃ p : String, (startAppP0 env appName customArgs).1.message = p ++ e.message) := by
  unfold startAppP0 launchAppProcessP0
  rw [h]
  dsimp only
  by_cases hsp : (jsIncludesChar execPath ' ' && env.platform == Platform.darwin) = true
  · rw [hsp]
    simp only [if_true]
    constructor
    · intro hnone
      rw [hnone]
    · intro e he hm
      rw [he]
      unfold p0Catch
      refine ⟨rfl, failCatchMsg false, ?_⟩
      simp [msgOrUnknown, hm]
  · rw [Bool.not_eq_true] at hsp
    rw [hsp]
    simp only [Bool.false_eq_true, if_false]
    constructor
    · intro hnone
      rw [hnone]
    · intro e he hm
      rw [he]
      exact ⟨rfl, failSpawnMsg false displayName, rfl⟩

/-- C7 (witness): instantiation at `"Safari"` on a quiet macOS host —
the window elapses without error and the outcome is success. -/
theorem c7_witness :
    (startAppP0 envQuiet "Safari" none).1 =
      { success := true, message := okMsg false "Safari",
        stdout := none, stderr := none } :=
  (c7_observation_window envQuiet "Safari" none
      "/Applications/Safari.app/Contents/MacOS/Safari" [] "Safari" (by decide)).1 rfl

/-- C8: for every tool with a required field, the `part_000` dispatcher
rejects an invocation whose arguments lack that field with an
`Invalid arguments` validation-error response and no external effect
(the Launcher and Terminator are never invoked): `launch_app`,
`start_app` and `stop_app` without `appName`, and `open_with_app`
without `appName` or without `filePath`.  And every
`start_app`/`stop_app` call carrying an `appName` produces a structured
tool result — the outcome of the core operation, whose failures are
`success: false` values, never an error thrown across the tool
boundary. -/
theorem c8_dispatcher_safety :
    (∀ (env : Env) (fp : Option String) (al : Option (List String)),
      handleCallToolP0 env
          { name := "start_app",
            arguments := some { appName := none, filePath := fp, args := al } } =
        (ToolResponse.errorText ("Invalid arguments: " ++ zodRequiredDetail), [])) ∧
    (∀ (env : Env) (fp : Option String) (al : Option (List String)),
      handleCallToolP0 env
          { name := "launch_app",
            arguments := some { appName := none, filePath := fp, args := al } } =
        (ToolResponse.errorText ("Invalid arguments: " ++ zodRequiredDetail), [])) ∧
    (∀ (env : Env) (fp : Option String) (al : Option (List String)),
      handleCallToolP0 env
          { name := "open_with_app",
            arguments := some { appName := none, filePath := fp, args := al } } =
        (ToolResponse.errorText ("Invalid arguments: " ++ zodRequiredDetail), [])) ∧
    (∀ (env : Env) (n : String) (al : Option (List String)),
      handleCallToolP0 env
          { name := "open_with_app",
            arguments := some { appName := some n, filePath := none, args := al } } =
        (ToolResponse.errorText ("Invalid arguments: " ++ zodRequiredDetail), [])) ∧
    (∀ (env : Env) (fp : Option String) (al : Option (List String)),
      handleCallToolP0 env
          { name := "stop_app",
            arguments := some { appName := none, filePath := fp, args := al } } =
        (ToolResponse.errorText ("Invalid arguments: " ++ zodRequiredDetail), [])) ∧
    (∀ (env : Env) (n : String) (fp : Option String) (al : Option (List String)),
      handleCallToolP0 env
          { name := "start_app",
            arguments := some { appName := some n, filePath := fp, args := al } } =
        (ToolResponse.result
          { success := (startAppP0 env n al).1.success,
            message := (startAppP0 env n al).1.message, stdout := none, stderr := none },
         (startAppP0 env n al).2)) ∧
    (∀ (env : Env) (n : String) (fp : Option String) (al : Option (List String)),
      handleCallToolP0 env
          { name := "stop_app",
            arguments := some { appName := some n, filePath := fp, args := al } } =
        (ToolResponse.result (stopAppP0 env n al).1, (stopAppP0 env n al).2)) :=
  ⟨fun _ _ _ => rfl, fun _ _ _ => rfl, fun _ _ _ => rfl, fun _ _ _ => rfl,
   fun _ _ _ => rfl, fun _ _ _ _ => rfl, fun _ _ _ _ => rfl⟩

/-- C9: a `start_firecrawl` or `stop_firecrawl` request with no
arguments object is rejected by the `part_000` dispatcher with
`Error: Arguments are required` before any external effect, even though
those tools declare an empty input schema; and only `list_applications`
and `list_configured_apps` are exempt from the arguments-present check:
those two proceed without arguments, while every other tool name
(including `launch_app`, `open_with_app`, `start_app`, `stop_app` and
unknown names) is rejected the same way. -/
theorem c9_arguments_guard :
    (∀ env : Env,
      handleCallToolP0 env { name := "start_firecrawl", arguments := none } =
        (ToolResponse.errorText "Error: Arguments are required", [])) ∧
    (∀ env : Env,
      handleCallToolP0 env { name := "stop_firecrawl", arguments := none } =
        (ToolResponse.errorText "Error: Arguments are required", [])) ∧
    (∀ env : Env, ∃ xs : List String,
      handleCallToolP0 env { name := "list_applications", arguments := none } =
        (ToolResponse.names xs, [Effect.readDir "/Applications"])) ∧
    (∀ env : Env,
      handleCallToolP0 env { name := "list_configured_apps", arguments := none } =
        (ToolResponse.names ["Desktop Crawler"], [])) ∧
    (∀ (env : Env) (toolName : String),
      toolName ≠ "list_applications" → toolName ≠ "list_configured_apps" →
      handleCallToolP0 env { name := toolName, arguments := none } =
        (ToolResponse.errorText "Error: Arguments are required", [])) := by
  refine ⟨fun _ => rfl, fun _ => rfl, fun env => ?_, fun _ => rfl, ?_⟩
  · unfold handleCallToolP0 listApplicationsP0
    cases env.applicationsDir with
    | ok files => exact ⟨jsSort (files.filter (fun f => jsEndsWith f ".app")), rfl⟩
    | error e => exact ⟨[], rfl⟩
  · intro env toolName h1 h2
    unfold handleCallToolP0
    have b1 : (toolName == "list_applications") = false := beq_eq_false_iff_ne.mpr h1
    have b2 : (toolName == "list_configured_apps") = false := beq_eq_false_iff_ne.mpr h2
    simp [b1, b2]

/-- C9 (witness): instantiation of the exemption-exhaustivity clause at
the tool name `launch_app` on a quiet host. -/
theorem c9_witness :
    handleCallToolP0 envQuiet { name := "launch_app", arguments := none } =
      (ToolResponse.errorText "Error: Arguments are required", []) :=
  c9_arguments_guard.2.2.2.2 envQuiet "launch_app" (by decide) (by decide)

/-- C10 (counterexample): in `part_000`, the unconfigured-app path
derivation of `start_app` is not `.app`-suffix-insensitive — the name is
passed through unchanged, so `"foo"` and `"foo.app"` spawn different
executables. -/
theorem c10_counterexample :
    (startAppP0 envQuiet "foo" none).2 ≠ (startAppP0 envQuiet "foo.app" none).2 := by decide

/-- C10 (amended): `launch_app` and `open_with_app` behave identically
on `appName` and `appName ++ ".app"` when the suffix is absent (it is
appended before use), and the unconfigured-app executable derivation of
the `src/src/index.ts` `startApp` is likewise suffix-insensitive (append
then strip).  The `part_000` `start_app`/`stop_app` derivation is not:
it uses the name verbatim. -/
theorem c10_app_suffix_insensitive (env : Env) (appName filePath : String)
    (h : jsEndsWith appName ".app" = false) :
    launchAppP0 env appName = launchAppP0 env (appName ++ ".app") ∧
    openWithAppP0 env appName filePath = openWithAppP0 env (appName ++ ".app") filePath ∧
    derivedExecutablePathIX appName = derivedExecutablePathIX (appName ++ ".app") := by
  have he : ensureAppSuffix appName = appName ++ ".app" := ensureAppSuffix_of_no_suffix h
  have he' : ensureAppSuffix (appName ++ ".app") = appName ++ ".app" :=
    ensureAppSuffix_append appName
  refine ⟨?_, ?_, ?_⟩
  · unfold launchAppP0
    rw [he, he']
  · unfold openWithAppP0
    rw [he, he']
  · unfold derivedExecutablePathIX
    rw [he, he']

/-- C10 (witness): instantiation at `"Safari"` with a concrete file
path on a quiet host. -/
theorem c10_witness :
    launchAppP0 envQuiet "Safari" = launchAppP0 envQuiet ("Safari" ++ ".app") ∧
    openWithAppP0 envQuiet "Safari" "/tmp/x.txt" =
      openWithAppP0 envQuiet ("Safari" ++ ".app") "/tmp/x.txt" ∧
    derivedExecutablePathIX "Safari" = derivedExecutablePathIX ("Safari" ++ ".app") :=
  c10_app_suffix_insensitive envQuiet "Safari" "/tmp/x.txt" (by decide)

end DesktopAppsLauncher
